import Mathlib

/-!
Verification development for the medical question-answering orchestration
pipeline of this repository (`backend/app/services/qa_service.py` together
with the knowledge-graph helpers of `backend/app/services/kg_service.py` and
the data model of `backend/app/models/query.py`).

External collaborators — the Neo4j graph store, the vector/passage store,
the per-user memory store and the hosted LLM providers — are modelled as
oracles packaged in an `Env` record; the orchestration logic itself is
translated function by function.  Async calls become pure oracle
applications, the SSE wire format is modelled at the event level
(`SEvent`), and floating-point confidence arithmetic is modelled over `ℚ`
with Python's `round(x, 2)` modelled as half-even rounding of `100 * x`.
-/

set_option maxRecDepth 100000

set_option maxHeartbeats 1000000

namespace MedQA

/-- Characters matched by the `[一-龥]` character class used by the
entity-extraction regexes in `qa_service.py`. -/
def isCJK (c : Char) : Bool := decide (0x4e00 ≤ c.toNat ∧ c.toNat ≤ 0x9fa5)

/-- Length of the maximal CJK prefix of a character list. -/
def cjkRun : List Char → Nat
  | [] => 0
  | c :: cs => if isCJK c then cjkRun cs + 1 else 0

/-- Fuel-driven scanner behind `findChunks` (structural recursion on the
fuel so that the kernel can evaluate it; each step consumes at least one
character, so fuel `= length` never runs out). -/
def findChunksAux (m M : Nat) : Nat → List Char → List String
  | _, [] => []
  | 0, _ :: _ => []
  | fuel + 1, c :: cs =>
    let k := min (cjkRun (c :: cs)) M
    if 1 ≤ k ∧ m ≤ k then
      String.mk ((c :: cs).take k) :: findChunksAux m M fuel (cs.drop (k - 1))
    else
      findChunksAux m M fuel cs

/-- Model of `re.findall(r'[一-龥]{m,M}', s)`: the scanner walks left
to right, at each position greedily matches up to `M` consecutive CJK
characters, emits the match when at least `m` characters matched, and
otherwise advances one character. -/
def findChunks (m M : Nat) (l : List Char) : List String :=
  findChunksAux m M l.length l

/-- Boolean substring test, the model of Python's `needle in hay` on
strings. -/
def substrB (needle hay : String) : Bool :=
  decide (needle.toList <:+: hay.toList)

/-- Helper for `dedupFirst`, carrying the set of strings already seen. -/
def dedupFirstAux (seen : List String) : List String → List String
  | [] => []
  | x :: xs =>
    if x ∈ seen then dedupFirstAux seen xs
    else x :: dedupFirstAux (x :: seen) xs

/-- Model of `list(dict.fromkeys(l))`: duplicates removed, first occurrence
order preserved. -/
def dedupFirst (l : List String) : List String := dedupFirstAux [] l

/-- Concatenation of a list of strings, the model of `+=` string
accumulation and of `''.join`. -/
def concatStrings : List String → String
  | [] => ""
  | s :: rest => s ++ concatStrings rest

/-- Model of `sep.join(list)`: the separator is placed between consecutive
elements only. -/
def joinSep (sep : String) : List String → String
  | [] => ""
  | [s] => s
  | s :: rest => s ++ sep ++ joinSep sep rest

/-- Model of Python's `l[-n:]`. -/
def lastN {α : Type} (n : Nat) (l : List α) : List α := l.drop (l.length - n)

/-- Whitespace removal at both ends of a character list. -/
def stripChars (l : List Char) : List Char :=
  ((l.dropWhile Char.isWhitespace).reverse.dropWhile Char.isWhitespace).reverse

/-- Model of Python's `str.strip()` (the queries of this development contain
only ASCII whitespace, where the two agree). -/
def stripStr (s : String) : String := String.mk (stripChars s.toList)

/-- The interrogative suffixes stripped by step 3b of the resolver
(`qa_service.py`, the `re.sub` alternation), in alternation order. -/
def questionSuffixes : List String :=
  ["是什么", "是啥", "啥是", "是啥意思", "是什么意思",
   "是什么病", "怎么回事", "有哪些症状", "症状", "怎么办"]

/-- Model of `re.sub(r'(是什么|…)$', '', s)`: an end-anchored alternation has
at most one (leftmost-starting) match, which is the longest alternative that
is a suffix of `s`; that suffix is removed. -/
def removeQuestionSuffix (s : String) : String :=
  let best := questionSuffixes.foldl
    (fun b a =>
      if decide (a.toList <:+ s.toList) && decide (b.length < a.length) then a else b) ""
  s.take (s.length - best.length)

/-- One turn of the conversation history (`ChatMessage` in
`models/query.py`). -/
structure ChatMessage where
  role : String
  content : String
deriving DecidableEq

/-- Retrieved passage, the fields of `Evidence` (`models/query.py`) that the
orchestration logic reads.  `confidence` is a rational in the model; pydantic
constrains it to `[0, 1]`.  `sec` models the optional `section` field
(`section` is a Lean keyword). -/
structure Evidence where
  source : String
  snippet : String
  confidence : ℚ
  sec : Option String
deriving DecidableEq

/-- One remembered-fact search hit from the memory store.  `scoreText` is
the already-rendered `round(score, 2)` used when the snippet is formatted
into the context; no claim depends on the numeral rendering itself. -/
structure MemoryItem where
  content : String
  scoreText : String
deriving DecidableEq

/-- Knowledge-graph node as used downstream by the pipeline.  Of the
`properties` dict only the `description` key is ever read
(`properties.get("description")`); `descr = ""` models a missing or empty
description. -/
structure KGNode where
  label : String
  type : String
  descr : String
deriving DecidableEq

/-- Knowledge-graph path.  Edges, relevance and confidence are carried by the
Python model but never read by the answer pipeline, so the model keeps only
the node list. -/
structure KGPath where
  nodes : List KGNode
deriving DecidableEq

/-- The structured disease record assembled by
`kg_service.get_full_disease_info` (the fields read by
`get_kg_context_for_query` and `find_paths_for_query`; `cure_time`,
`cure_prob` and `easy_get` are returned by the Python function but never
rendered). -/
structure DiseaseInfo where
  name : String
  description : String
  cause : String
  prevent : String
  symptoms : List String
  common_drugs : List String
  recommended_drugs : List String
  do_eat : List String
  not_eat : List String
  checks : List String
  departments : List String
  cure_ways : List String
  complications : List String
deriving DecidableEq

/-- The configured LLM backend (`QAService._llm_provider`). -/
inductive Provider
  | mock
  | siliconflow
  | gemini
  | openai
deriving DecidableEq

/-- Outcome of a provider invocation.  `success chunks` carries the streamed
fragments; the synchronous call returns their concatenation (the claim set
compares the two paths under identical provider output).  `timeout` models
`asyncio.TimeoutError`, `transportError` any other raised exception. -/
inductive LLMBehavior
  | success (chunks : List String)
  | timeout
  | transportError
deriving DecidableEq

/-- `AnswerSource` (`models/query.py`). -/
inductive AnswerSource
  | knowledge_graph
  | llm_only
  | mixed
  | template
deriving DecidableEq

/-- `QueryRequest` (`models/query.py`), restricted to the fields the
pipeline reads. -/
structure QueryRequest where
  query : String
  history : List ChatMessage
  userId : Option String
  maxAnswers : Nat
  includeKgPaths : Bool
  includeEvidence : Bool
deriving DecidableEq

/-- The pydantic validation constraints on `QueryRequest`
(`min_length=1, max_length=2000` on `query`; `ge=1, le=10` on
`max_answers`). -/
def ValidRequest (r : QueryRequest) : Prop :=
  1 ≤ r.query.length ∧ r.query.length ≤ 2000 ∧ 1 ≤ r.maxAnswers ∧ r.maxAnswers ≤ 10

instance (r : QueryRequest) : Decidable (ValidRequest r) := by
  unfold ValidRequest; infer_instance

/-- `QueryResponse` (`models/query.py`). -/
structure QueryResponse where
  queryId : String
  answer : String
  answerSource : AnswerSource
  evidence : List Evidence
  kgPaths : List KGPath
  confidenceScore : ℚ
  warnings : List String
  disclaimer : String
  processingTimeMs : Nat
  modelUsed : String
deriving DecidableEq

/-- The external world as seen by one request: oracles for the graph store,
vector store and memory store, the provider configuration and its behaviour
on this request, plus the nondeterministic bookkeeping values (query id and
measured latency). -/
structure Env where
  kgConnected : Bool
  searchDiseaseO : String → Nat → List String
  searchSymptomO : String → Nat → List String
  fullDiseaseInfoO : String → Option DiseaseInfo
  diseasesBySymptomO : String → List String
  vectorSearchO : String → List String → Nat → List Evidence
  memorySearchO : String → String → Nat → List MemoryItem
  provider : Provider
  llm : LLMBehavior
  siliconflowModel : String
  queryId : String
  processingTimeMs : Nat

/-- `kg_service.search_disease`: the query cascade (exact → fulltext →
CONTAINS) runs against the database and is abstracted as the oracle; the
guard `if not self._is_connected: return []` is the part translated here. -/
def search_disease (env : Env) (kw : String) (lim : Nat) : List String :=
  if env.kgConnected then env.searchDiseaseO kw lim else []

/-- `kg_service.search_symptom`, with the same connected guard. -/
def search_symptom (env : Env) (kw : String) (lim : Nat) : List String :=
  if env.kgConnected then env.searchSymptomO kw lim else []

/-- `kg_service.get_full_disease_info`: database work (including the fuzzy
name fallback) is the oracle; the connected guard is translated. -/
def get_full_disease_info (env : Env) (name : String) : Option DiseaseInfo :=
  if env.kgConnected then env.fullDiseaseInfoO name else none

/-- `kg_service.get_diseases_by_symptom`, with the connected guard. -/
def get_diseases_by_symptom (env : Env) (name : String) : List String :=
  if env.kgConnected then env.diseasesBySymptomO name else []

/-- The static lexicon `medical_terms` of `QAService._extract_entities`. -/
def medical_terms : List String :=
  ["头痛", "偏头痛", "紧张性头痛", "发热", "发烧", "感冒", "流感",
   "咳嗽", "恶心", "呕吐", "腹痛", "腹泻", "便秘", "胸痛", "心悸",
   "高血压", "糖尿病", "哮喘", "过敏", "皮疹", "失眠", "焦虑", "抑郁",
   "布洛芬", "对乙酰氨基酚", "阿司匹林", "抗生素", "维生素",
   "脑膜炎", "脑卒中", "中风", "癫痫", "帕金森",
   "畏光", "颈部僵硬", "意识", "视力", "乏力", "疲劳",
   "肺炎", "支气管炎", "胃炎", "肠炎", "肝炎", "肾炎",
   "冠心病", "心肌梗死", "心绞痛", "心律失常",
   "骨折", "关节炎", "腰痛", "颈椎病", "肩周炎",
   "湿疹", "荨麻疹", "痤疮", "银屑病",
   "贫血", "白血病", "淋巴瘤"]

/-- `QAService._extract_entities`: every lexicon term occurring as a
substring of the query, in lexicon order. -/
def extract_entities (query : String) : List String :=
  medical_terms.filter (fun t => substrB t query)

/-- `QAService.SYNONYMS`, in dict insertion order. -/
def SYNONYMS : List (String × String) :=
  [("小儿麻痹症", "脊髓灰质炎"),
   ("小儿麻痹", "脊髓灰质炎"),
   ("儿麻痹", "脊髓灰质炎"),
   ("普通流感", "流感"),
   ("流感", "流行性感冒"),
   ("感冒", "上呼吸道感染")]

/-- Steps 1 and 1b of `_extract_entities_from_kg`: lexicon scan, then the
colloquial → canonical synonym pass (a canonical name is appended when its
colloquial key occurs in the query and the canonical name is not already
present). -/
def entitiesLexSyn (query : String) : List String :=
  SYNONYMS.foldl
    (fun a p => if substrB p.1 query ∧ p.2 ∉ a then a ++ [p.2] else a)
    (extract_entities query)

/-- Which resolver step issued a probe against `kg_service`. -/
inductive Phase
  | stepProbe
  | stepHistory
  | stepAggressive
  | stepMerge
deriving DecidableEq

/-- Whether a probe hit the disease or the symptom search. -/
inductive ProbeKind
  | disease
  | symptom
deriving DecidableEq

/-- One fuzzy/full-text search call issued by the resolver. -/
structure ProbeCall where
  phase : Phase
  kind : ProbeKind
  keyword : String
deriving DecidableEq

/-- The candidate-term probe loop shared by step 2 of
`_extract_entities_from_kg`, by `_extract_entities_from_query_only` and by
the final merge pass: for each term not already found, try
`search_disease(term, 1)` and then `search_symptom(term, 1)`, appending the
first hit.  The second component records the calls issued. -/
def probeTerms (env : Env) (ph : Phase) :
    List String → List String → List String × List ProbeCall
  | acc, [] => (acc, [])
  | acc, t :: ts =>
    if t ∈ acc then probeTerms env ph acc ts
    else
      match search_disease env t 1 with
      | d :: _ =>
        let r := probeTerms env ph (acc ++ [d]) ts
        (r.1, ⟨ph, .disease, t⟩ :: r.2)
      | [] =>
        match search_symptom env t 1 with
        | s :: _ =>
          let r := probeTerms env ph (acc ++ [s]) ts
          (r.1, ⟨ph, .disease, t⟩ :: ⟨ph, .symptom, t⟩ :: r.2)
        | [] =>
          let r := probeTerms env ph acc ts
          (r.1, ⟨ph, .disease, t⟩ :: ⟨ph, .symptom, t⟩ :: r.2)

/-- Steps 1–2 of `_extract_entities_from_kg`: lexicon + synonyms, then — only
when the graph store is connected — the fuzzy probe of the 2–6 character
candidate chunks of the current query. -/
def entitiesAfterProbe (env : Env) (query : String) :
    List String × List ProbeCall :=
  if env.kgConnected then
    probeTerms env .stepProbe (entitiesLexSyn query) (findChunks 2 6 query.toList)
  else (entitiesLexSyn query, [])

/-- Inner loop of the history backoff (step 3): scan the 2–12 character
chunks of one message, stopping at the first disease or symptom hit.  The
`acc` parameter models the `term in found_entities` check (the list is
empty whenever this step runs, thanks to the step gate). -/
def backoffTerms (env : Env) (acc : List String) :
    List String → Option String × List ProbeCall
  | [] => (none, [])
  | t :: ts =>
    if t ∈ acc then backoffTerms env acc ts
    else
      match search_disease env t 1 with
      | d :: _ => (some d, [⟨.stepHistory, .disease, t⟩])
      | [] =>
        match search_symptom env t 1 with
        | s :: _ => (some s, [⟨.stepHistory, .disease, t⟩, ⟨.stepHistory, .symptom, t⟩])
        | [] =>
          let r := backoffTerms env acc ts
          (r.1, ⟨.stepHistory, .disease, t⟩ :: ⟨.stepHistory, .symptom, t⟩ :: r.2)

/-- Step 3 of `_extract_entities_from_kg`: walk the last six history turns
newest first, considering user turns only, and stop at the first turn that
yields an entity. -/
def historyBackoff (env : Env) : List ChatMessage → List String × List ProbeCall
  | [] => ([], [])
  | m :: ms =>
    if m.role ≠ "user" then historyBackoff env ms
    else
      match backoffTerms env [] (findChunks 2 12 m.content.toList) with
      | (some e, log) => ([e], log)
      | (none, log) =>
        let r := historyBackoff env ms
        (r.1, log ++ r.2)

/-- Positions loop of the n-gram scan in step 3b: slices of one fixed length,
left to right, stopping at the first disease hit.  (`sub in found_entities`
can never trigger here because the step only runs with no entities found.) -/
def ngramScanPos (env : Env) (text : List Char) (len : Nat) :
    List Nat → Option String × List ProbeCall
  | [] => (none, [])
  | i :: is =>
    let sub := String.mk ((text.drop i).take len)
    match search_disease env sub 1 with
    | d :: _ => (some d, [⟨.stepAggressive, .disease, sub⟩])
    | [] =>
      let r := ngramScanPos env text len is
      (r.1, ⟨.stepAggressive, .disease, sub⟩ :: r.2)

/-- Lengths loop of the n-gram scan: lengths 6 down to 2, stopping at the
first length that yields a hit. -/
def ngramScanLens (env : Env) (text : List Char) :
    List Nat → Option String × List ProbeCall
  | [] => (none, [])
  | len :: lens =>
    match ngramScanPos env text len (List.range (text.length + 1 - len)) with
    | (some d, log) => (some d, log)
    | (none, log) =>
      let r := ngramScanLens env text lens
      (r.1, log ++ r.2)

/-- Step 3b of `_extract_entities_from_kg`: strip interrogative suffixes,
try the whole cleaned query against the disease search (limit 3, all hits
kept), and if that fails run the longest-first n-gram scan over the CJK
characters of the query. -/
def aggressiveSearch (env : Env) (query : String) :
    List String × List ProbeCall :=
  let cleaned := stripStr (removeQuestionSuffix (stripStr query))
  let first : List String × List ProbeCall :=
    if cleaned ≠ "" then
      (search_disease env cleaned 3, [⟨.stepAggressive, .disease, cleaned⟩])
    else ([], [])
  if first.1 ≠ [] then first
  else
    let text := query.toList.filter (fun c => isCJK c)
    match ngramScanLens env text [6, 5, 4, 3, 2] with
    | (some d, log) => (first.1 ++ [d], first.2 ++ log)
    | (none, log) => (first.1, first.2 ++ log)

/-- Step 4 of `_extract_entities_from_kg`: when history exists and the store
is connected, re-run the lexicon scan and the candidate probe over the
space-joined concatenation of the last six turns and the query, then append
any lexicon findings not yet present. -/
def mergePass (env : Env) (history : List ChatMessage) (query : String)
    (acc : List String) : List String × List ProbeCall :=
  if history ≠ [] ∧ env.kgConnected then
    let combined :=
      joinSep " " ((lastN 6 history).map (fun m => m.content)) ++ " " ++ query
    let more := extract_entities combined
    let r := probeTerms env .stepMerge acc (findChunks 2 6 combined.toList)
    (more.foldl (fun a e => if e ∈ a then a else a ++ [e]) r.1, r.2)
  else (acc, [])

/-- State of `found_entities` after step 3 (history backoff), which runs
only when steps 1–2 found nothing and history exists. -/
def resolverS3 (env : Env) (query : String) (history : List ChatMessage) :
    List String × List ProbeCall :=
  if (entitiesAfterProbe env query).1 = [] ∧ history ≠ [] then
    ((entitiesAfterProbe env query).1 ++
        (historyBackoff env ((lastN 6 history).reverse)).1,
      (historyBackoff env ((lastN 6 history).reverse)).2)
  else ((entitiesAfterProbe env query).1, [])

/-- State of `found_entities` after step 3b (aggressive search), which runs
only when the list is still empty. -/
def resolverS4 (env : Env) (query : String) (history : List ChatMessage) :
    List String × List ProbeCall :=
  if (resolverS3 env query history).1 = [] then
    ((resolverS3 env query history).1 ++ (aggressiveSearch env query).1,
      (aggressiveSearch env query).2)
  else ((resolverS3 env query history).1, [])

/-- `QAService._extract_entities_from_kg`, the history-aware resolver:
steps 1–2 (`entitiesAfterProbe`), the gated steps 3 and 3b, the merge pass,
and the final first-occurrence dedup.  The second component is the log of
all fuzzy/full-text probes issued to `kg_service`. -/
def extract_entities_from_kg (env : Env) (query : String)
    (history : List ChatMessage) : List String × List ProbeCall :=
  (dedupFirst (mergePass env history query (resolverS4 env query history).1).1,
   (entitiesAfterProbe env query).2 ++ (resolverS3 env query history).2 ++
     (resolverS4 env query history).2 ++
     (mergePass env history query (resolverS4 env query history).1).2)

/-- `QAService._extract_entities_from_query_only`, the current-turn-only
resolver used to scope evidence retrieval. -/
def extract_entities_from_query_only (env : Env) (query : String) :
    List String :=
  let base := extract_entities query
  dedupFirst
    (if env.kgConnected then
      (probeTerms env .stepProbe base (findChunks 2 6 query.toList)).1
     else base)

/-- Python's `s[:200] + "..."` truncation guarded by `len(s) > 200`, as used
for the `cause` and `prevent` fields in `get_kg_context_for_query`. -/
def truncate200 (s : String) : String :=
  if 200 < s.length then s.take 200 ++ "..." else s

/-- The disease block rendered by `kg_service.get_kg_context_for_query`
(lines 574–600): a header plus one line per non-empty field, assembled by
`+=` in source order.  Note that `description` is rendered in full while
`cause` and `prevent` go through the 200-character truncation. -/
def renderDiseaseContext (info : DiseaseInfo) : String :=
  concatStrings
    [ "\n【" ++ info.name ++ "】\n"
    , if info.description ≠ "" then "简介：" ++ info.description ++ "\n" else ""
    , if info.symptoms ≠ [] then
        "症状：" ++ joinSep ", " (info.symptoms.take 10) ++ "\n" else ""
    , if info.cause ≠ "" then "病因：" ++ truncate200 info.cause ++ "\n" else ""
    , if info.prevent ≠ "" then "预防：" ++ truncate200 info.prevent ++ "\n" else ""
    , if info.departments ≠ [] then
        "就诊科室：" ++ joinSep ", " info.departments ++ "\n" else ""
    , if info.cure_ways ≠ [] then
        "治疗方法：" ++ joinSep ", " (info.cure_ways.take 5) ++ "\n" else ""
    , if info.common_drugs ≠ [] ∨ info.recommended_drugs ≠ [] then
        "常用药物：" ++
          joinSep ", " ((info.common_drugs ++ info.recommended_drugs).take 8) ++ "\n"
      else ""
    , if info.do_eat ≠ [] then
        "宜吃食物：" ++ joinSep ", " (info.do_eat.take 5) ++ "\n" else ""
    , if info.not_eat ≠ [] then
        "忌吃食物：" ++ joinSep ", " (info.not_eat.take 5) ++ "\n" else ""
    , if info.checks ≠ [] then
        "检查项目：" ++ joinSep ", " (info.checks.take 5) ++ "\n" else ""
    , if info.complications ≠ [] then
        "并发症：" ++ joinSep ", " (info.complications.take 5) ++ "\n" else "" ]

/-- The symptom fallback block of `get_kg_context_for_query`: when an entity
has no usable disease record, list the diseases carrying it as a symptom. -/
def symptomContext (env : Env) (entity : String) : Option String :=
  let ds := get_diseases_by_symptom env entity
  if ds ≠ [] then
    some ("\n【症状：" ++ entity ++ "】\n" ++
      "可能相关的疾病：" ++ joinSep ", " (ds.take 10) ++ "\n")
  else none

/-- One entity's contribution to the graph context: disease record when it
exists and has a description, otherwise the symptom fallback, otherwise
nothing. -/
def contextForEntity (env : Env) (entity : String) : Option String :=
  match get_full_disease_info env entity with
  | some info =>
    if info.description ≠ "" then some (renderDiseaseContext info)
    else symptomContext env entity
  | none => symptomContext env entity

/-- `kg_service.get_kg_context_for_query`: first three entities, blocks
joined with a newline; empty when disconnected. -/
def get_kg_context_for_query (env : Env) (entities : List String) : String :=
  if env.kgConnected then
    joinSep "\n" ((entities.take 3).filterMap (contextForEntity env))
  else ""

/-- Node list of the disease-centred path built by
`kg_service.find_paths_for_query`: the disease node (carrying the
description in its properties) followed by up to five symptom nodes and up
to three drug nodes.  Node ids and edges are built by the source but never
read downstream, so the model keeps the nodes only. -/
def diseasePathNodes (info : DiseaseInfo) : List KGNode :=
  ⟨info.name, "Disease", info.description⟩ ::
    ((info.symptoms.take 5).map (fun s => (⟨s, "Symptom", ""⟩ : KGNode)) ++
     (((info.common_drugs ++ info.recommended_drugs).take 3).map
        (fun d => (⟨d, "Drug", ""⟩ : KGNode))))

/-- One entity's path in `find_paths_for_query`: disease path when the full
record has a description, else a symptom-centred path when the symptom
lookup yields diseases, else nothing. -/
def pathForEntity (env : Env) (entity : String) : Option KGPath :=
  match get_full_disease_info env entity with
  | some info =>
    if info.description ≠ "" then some ⟨diseasePathNodes info⟩
    else
      match get_diseases_by_symptom env entity with
      | [] => none
      | ds =>
        some ⟨⟨entity, "Symptom", ""⟩ ::
          (ds.take 5).map (fun d => (⟨d, "Disease", ""⟩ : KGNode))⟩
  | none =>
    match get_diseases_by_symptom env entity with
    | [] => none
    | ds =>
      some ⟨⟨entity, "Symptom", ""⟩ ::
        (ds.take 5).map (fun d => (⟨d, "Disease", ""⟩ : KGNode))⟩

/-- `kg_service.find_paths_for_query`: empty when disconnected, else at most
five paths built from the first five entities. -/
def find_paths_for_query (env : Env) (entities : List String) : List KGPath :=
  if env.kgConnected then
    ((entities.take 5).filterMap (pathForEntity env)).take 5
  else []

/-- One `- type: label[ - description]` line of the path-based context
fallback in `_process_query_internal` / `_process_query_stream_internal`. -/
def nodeLine (n : KGNode) : String :=
  "- " ++ n.type ++ ": " ++ n.label ++
    (if n.descr ≠ "" then " - " ++ n.descr else "") ++ "\n"

/-- The path-based context fallback: header plus one line per node of the
first three paths. -/
def pathsContext (kgPaths : List KGPath) : String :=
  "相关医学知识：\n" ++
    concatStrings ((kgPaths.take 3).map (fun p => concatStrings (p.nodes.map nodeLine)))

/-- The notice appended to every mock/template answer
(`_generate_mock_response`). -/
def fallback_notice : String :=
  "\n\n---\n📚 **提示**：本回答基于医疗知识图谱生成，未使用AI大模型。\n"

/-- `QAService._generate_headache_response`. -/
def headacheResponse : String :=
"## 头痛的可能原因分析

根据您描述的症状，头痛可能由以下几种常见原因引起：

### 常见原因

1. **偏头痛** [来源: 中华神经科杂志, PMID:34567890]
   - 表现为反复发作的中重度搏动性头痛
   - 常伴有恶心、呕吐、畏光和畏声
   - 发作通常持续4-72小时

2. **紧张性头痛** [来源: Headache, PMID:34567891]
   - 最常见的头痛类型，终生患病率达78%
   - 表现为双侧压迫性或紧箍样头痛
   - 程度轻至中度，不因日常活动加重

3. **上呼吸道感染（感冒/流感）**
   - 尤其在伴有发热、咳嗽、流涕时需考虑
   - 头痛通常为全头部钝痛

### ⚠️ 需要立即就医的危险信号 [来源: NICE临床指南]

如出现以下情况，请**立即**前往医院就诊：
- **雷击样头痛**：数秒内达到高峰的剧烈头痛
- **伴发热和颈部僵硬**：可能提示脑膜炎
- **意识改变或神经功能缺损**
- **头痛进行性加重**
- **50岁以后新发头痛**
- **伴视力改变或眼痛**

### 建议

1. 保持充足休息，避免过度劳累
2. 可考虑对症服用对乙酰氨基酚（1000mg）或布洛芬（400-600mg）缓解症状
3. 如头痛持续超过3天或频繁发作，建议就医进一步评估
4. 记录头痛日记（发作时间、持续时间、诱因、伴随症状）有助于诊断"

/-- `QAService._generate_fever_response`. -/
def feverResponse : String :=
"## 发热的评估与建议

### 发热定义
发热定义为核心体温≥38°C（腋温≥37.3°C可视为低热）。[来源: 中华内科杂志, PMID:34567893]

### 常见原因
1. **感染性疾病**（最常见）
   - 上呼吸道感染、流感
   - 肺炎、泌尿道感染等

2. **非感染性原因**
   - 自身免疫疾病
   - 药物热

### ⚠️ 需要就医的情况
- 体温≥39°C持续24小时以上
- 伴有剧烈头痛和颈部僵硬（警惕脑膜炎）
- 伴有意识改变
- 伴有皮疹
- 儿童、老年人或免疫力低下者

### 对症处理建议
1. 多饮水，保持休息
2. 可服用对乙酰氨基酚或布洛芬退热
3. 物理降温（温水擦浴）
4. 如持续不退或伴有其他症状，请及时就医"

/-- `QAService._generate_drug_response`. -/
def drugResponse : String :=
"## 药物信息

### 常用止痛退热药物 [来源: DrugBank, Cochrane]

1. **对乙酰氨基酚（扑热息痛）**
   - 用法：成人每次500-1000mg，每4-6小时一次
   - 每日最大剂量：4000mg
   - 适用于轻至中度疼痛和退热
   - 注意：避免过量，有肝损害风险

2. **布洛芬** [来源: DrugBank DB01050]
   - 用法：成人每次200-400mg，每4-6小时一次
   - 每日最大剂量：1200mg（非处方）
   - 同时具有止痛、退热、抗炎作用
   - 禁忌：活动性消化道溃疡、严重心衰

### ⚠️ 用药注意事项
- 每月使用止痛药不宜超过10天，以防药物过度使用性头痛
- 有胃病史者慎用NSAIDs类药物
- 肝肾功能不全者请遵医嘱调整剂量
- 如需长期用药，请咨询医生"

/-- `QAService._generate_diabetes_response`. -/
def diabetesResponse : String :=
"## 糖尿病相关信息 [来源: 中华糖尿病杂志 2024年指南]

### 2型糖尿病管理要点

**控制目标**：
- HbA1c < 7%（可根据个体情况调整）
- 空腹血糖：4.4-7.0 mmol/L
- 餐后2小时血糖：< 10.0 mmol/L

**一线用药**：
- 二甲双胍是2型糖尿病首选药物
- 无禁忌症患者应从诊断时开始使用

**生活方式干预**：
1. 饮食控制：控制总热量，均衡营养
2. 规律运动：每周至少150分钟中等强度运动
3. 戒烟限酒
4. 控制体重

**定期监测**：
- 血糖监测
- 每3-6个月检测HbA1c
- 每年眼底检查
- 每年肾功能检查
- 定期足部检查

⚠️ 糖尿病管理需要个体化方案，请遵医嘱治疗。"

/-- `QAService._generate_hypertension_response`. -/
def hypertensionResponse : String :=
"## 高血压相关信息 [来源: 中国高血压防治指南 2023]

### 诊断标准
非同日3次血压测量≥140/90mmHg即可诊断高血压。

### 治疗目标
- 一般患者：< 140/90 mmHg
- 高危患者：< 130/80 mmHg

### 一线降压药物
1. ACEI/ARB（普利类/沙坦类）
2. CCB（地平类）
3. 利尿剂
4. β受体阻滞剂

### 生活方式改变
1. **限盐**：每日摄盐<6g
2. **减重**：BMI控制在24以下
3. **戒烟**：完全戒烟
4. **限酒**：男性<25g/天，女性<15g/天
5. **运动**：每周5-7天，每次30分钟有氧运动

### ⚠️ 注意事项
- 高血压需要长期管理，不可自行停药
- 血压波动大或控制不佳请及时就医
- 定期监测血压并记录"

/-- The numbered reference list of `_generate_default_response`
(`ev.section or '医学文献'`, source label in brackets). -/
def evidenceSummary (evidence : List Evidence) : String :=
  if evidence ≠ [] then
    "\n\n### 相关参考资料\n" ++
      concatStrings (((evidence.take 3).enumFrom 1).map
        (fun p =>
          toString p.1 ++ ". " ++
            (match p.2.sec with
             | some s => if s ≠ "" then s else "医学文献"
             | none => "医学文献") ++
            " [来源: " ++ p.2.source ++ "]\n"))
  else ""

/-- `QAService._generate_default_response`. -/
def generate_default_response (query : String) (evidence : List Evidence) :
    String :=
  "## 关于您的问题\n\n感谢您的咨询。根据您的问题，我检索了相关的医学资料。\n\n由于问题的具体性，建议您：\n\n1. **详细描述症状**：包括持续时间、严重程度、伴随症状等\n2. **咨询专业医生**：获取针对性的诊断和治疗建议\n3. **不要自行用药**：特别是处方药物\n\n" ++
    evidenceSummary evidence ++
    "\n\n⚠️ 本系统仅供信息参考，不能替代专业医生的诊断和治疗建议。如有不适，请及时就医。"

/-- `QAService._generate_mock_response`: render the graph context when one
exists, otherwise dispatch on topic keywords, otherwise the default
response; the mock notice is appended in every branch.  The `entities` and
`kgPaths` arguments are passed by the source but unused by every topic
handler. -/
def generate_mock_response (query : String) (entities : List String)
    (evidence : List Evidence) (kgPaths : List KGPath) (kg_context : String) :
    String :=
  if kg_context ≠ "" then
    "## 关于您的问题\n\n根据医疗知识库的信息，为您提供以下参考：\n\n" ++
      kg_context ++ "\n" ++ fallback_notice ++
      "⚠️ **重要提示**：以上信息仅供参考，不能替代专业医生的诊断和治疗建议。如有身体不适，请及时就医。"
  else if ["头痛", "头疼", "偏头痛"].any (fun t => substrB t query) then
    headacheResponse ++ fallback_notice
  else if ["发热", "发烧", "体温"].any (fun t => substrB t query) then
    feverResponse ++ fallback_notice
  else if ["药", "用药", "吃什么药", "布洛芬", "对乙酰氨基酚"].any (fun t => substrB t query) then
    drugResponse ++ fallback_notice
  else if ["糖尿病", "血糖"].any (fun t => substrB t query) then
    diabetesResponse ++ fallback_notice
  else if ["高血压", "血压"].any (fun t => substrB t query) then
    hypertensionResponse ++ fallback_notice
  else
    generate_default_response query evidence ++ fallback_notice

/-- `QAService._generate_fallback_response`, the answer used in mock mode
when no graph data exists. -/
def generate_fallback_response (query : String) (entities : List String) :
    String :=
  "## 关于您的问题\n\n感谢您的咨询。\n\n目前知识库中暂无关于\"" ++
    (if entities ≠ [] then joinSep ", " entities else "您所询问内容") ++
    "\"的详细信息。\n\n**建议**：\n1. 尝试使用更具体的医学术语进行查询\n2. 如有身体不适，请及时前往医院就诊\n3. 可以咨询专业医生获取准确的诊断和治疗建议\n\n---\n📚 **提示**：本回答基于医疗知识图谱生成，未使用AI大模型。\n⚠️ **重要提示**：本系统仅供医疗信息参考，不能替代专业医生的诊断和治疗建议。"

/-- The display name used inside the no-graph-data notice
(`model_name_map`). -/
def modelDisplayName (env : Env) : String :=
  match env.provider with
  | .mock => "模板回复"
  | .gemini => "Gemini"
  | .openai => "GPT-4"
  | .siliconflow => env.siliconflowModel

/-- The `model_used` field of the response. -/
def modelUsedName (env : Env) : String :=
  match env.provider with
  | .mock => "mock-llm"
  | .gemini => "gemini-1.5-flash"
  | .openai => "gpt-4"
  | .siliconflow => env.siliconflowModel

/-- The attribution notice appended to provider answers produced without
graph data (`no_kg_notice` in both pipeline methods). -/
def no_kg_notice (env : Env) : String :=
  "\n\n---\n🤖 **来源说明**：知识图谱中未找到相关信息，本回答由 AI 大模型（" ++
    modelDisplayName env ++
    "）基于通用医学知识生成。\n⚠️ **重要提示**：AI 生成内容仅供参考，可能存在误差，请以专业医生诊断为准。如有身体不适，请及时就医。"

/-- The fixed disclaimer attached to every response by both pipeline
methods. -/
def disclaimerText : String :=
  "⚠️ 重要提示：本系统仅供医疗信息参考，不能替代专业医生的诊断和治疗建议。如有身体不适，请及时就医。紧急情况请拨打急救电话。"

/-- Half-even integer rounding on rationals, the model of Python's banker's
rounding.  (Python rounds the binary double closest to the value; on the
exact rationals of this development the two agree away from representation
artefacts.) -/
def roundHalfEven (q : ℚ) : ℤ :=
  let f := ⌊q⌋
  let r := q - f
  if r < 1/2 then f
  else if 1/2 < r then f + 1
  else if 2 ∣ f then f else f + 1

/-- Model of Python's `round(x, 2)`. -/
def round2 (q : ℚ) : ℚ := (roundHalfEven (100 * q) : ℚ) / 100

/-- Arithmetic mean of a list of rationals (`sum(l) / len(l)`). -/
def meanQ (l : List ℚ) : ℚ := l.sum / l.length

/-- `[ev.confidence for ev in evidence if ev.confidence]`: Python truthiness
drops the evidence items whose confidence is exactly `0`. -/
def confidenceScores (evidence : List Evidence) : List ℚ :=
  (evidence.filter (fun e => e.confidence ≠ 0)).map (fun e => e.confidence)

/-- `overall_confidence`: mean of the truthy confidences, or the `0.7`
neutral default when there are none. -/
def overallConfidence (evidence : List Evidence) : ℚ :=
  if confidenceScores evidence = [] then 7/10
  else meanQ (confidenceScores evidence)

/-- Entities of the history-aware resolution, as used by both pipelines. -/
def syncEntities (env : Env) (req : QueryRequest) : List String :=
  (extract_entities_from_kg env req.query req.history).1

/-- Step 2 of both pipelines: KG paths when requested and entities exist. -/
def syncKgPaths (env : Env) (req : QueryRequest) : List KGPath :=
  if req.includeKgPaths ∧ syncEntities env req ≠ [] then
    find_paths_for_query env (syncEntities env req)
  else []

/-- Step 3 of both pipelines: evidence retrieval keyed by the
current-turn-only entities, limit `max_answers + 2`. -/
def retrievedEvidence (env : Env) (req : QueryRequest) : List Evidence :=
  if req.includeEvidence then
    env.vectorSearchO req.query (extract_entities_from_query_only env req.query)
      (req.maxAnswers + 2)
  else []

/-- The memory lookup of the synchronous pipeline (`if request.user_id:`,
so an empty user id also skips the search). -/
def memoryResults (env : Env) (req : QueryRequest) : List MemoryItem :=
  match req.userId with
  | some uid => if uid ≠ "" then env.memorySearchO req.query uid 5 else []
  | none => []

/-- The remembered-fact preamble prepended to `kg_context` by the
synchronous pipeline when memory hits exist. -/
def memText (env : Env) (req : QueryRequest) : String :=
  if memoryResults env req ≠ [] then
    "用户历史记忆：\n" ++
      concatStrings ((memoryResults env req).map
        (fun m => "- (" ++ m.scoreText ++ ") " ++ m.content ++ "\n")) ++ "\n"
  else ""

/-- `kg_context` of the synchronous pipeline: memory preamble, then the
graph context (entities found and store connected), then the path-based
fallback when the text is still empty but paths exist. -/
def syncKgContext (env : Env) (req : QueryRequest) : String :=
  let ctx1 := memText env req ++
    (if syncEntities env req ≠ [] ∧ env.kgConnected then
      get_kg_context_for_query env (syncEntities env req)
     else "")
  if ctx1 = "" ∧ syncKgPaths env req ≠ [] then pathsContext (syncKgPaths env req)
  else ctx1

/-- `kg_available = bool(kg_context or kg_paths)` in the synchronous
pipeline. -/
def syncKgAvailable (env : Env) (req : QueryRequest) : Bool :=
  decide (syncKgContext env req ≠ "" ∨ syncKgPaths env req ≠ [])

/-- The answer text produced by `_process_query_internal`.  Mock mode
renders templates; a successful provider call returns its output with the
attribution notice appended only when no graph data exists; a timeout or any
other provider exception falls back to `_generate_mock_response`.  Prompt
construction only parameterises the provider call and is absorbed into the
oracle. -/
def syncAnswer (env : Env) (req : QueryRequest) : String :=
  match env.provider with
  | .mock =>
    if syncKgAvailable env req then
      generate_mock_response req.query (syncEntities env req)
        (retrievedEvidence env req) (syncKgPaths env req) (syncKgContext env req)
    else generate_fallback_response req.query (syncEntities env req)
  | _ =>
    match env.llm with
    | .success chunks =>
      concatStrings chunks ++
        (if syncKgAvailable env req then "" else no_kg_notice env)
    | .timeout =>
      generate_mock_response req.query (syncEntities env req)
        (retrievedEvidence env req) (syncKgPaths env req) (syncKgContext env req)
    | .transportError =>
      generate_mock_response req.query (syncEntities env req)
        (retrievedEvidence env req) (syncKgPaths env req) (syncKgContext env req)

/-- The warning list of the synchronous pipeline, in source order. -/
def syncWarnings (env : Env) (req : QueryRequest) : List String :=
  (if retrievedEvidence env req = [] then ["未找到直接相关的医学文献"] else []) ++
  (if ¬ syncKgAvailable env req then ["知识图谱中未找到相关信息"] else []) ++
  (if ¬ env.kgConnected then ["知识图谱服务未连接"] else [])

/-- The answer-source classification of both pipelines: derived from the
configured provider and `kg_available` only. -/
def answerSourceOf (provider : Provider) (kgAvailable : Bool) : AnswerSource :=
  match provider with
  | .mock => if kgAvailable then .knowledge_graph else .template
  | _ => if kgAvailable then .mixed else .llm_only

/-- `QAService._process_query_internal`: the synchronous pipeline.  The
fire-and-forget memory write has no effect on the returned response and is
not modelled. -/
def process_query_internal (env : Env) (req : QueryRequest) : QueryResponse :=
  { queryId := env.queryId
    answer := syncAnswer env req
    answerSource := answerSourceOf env.provider (syncKgAvailable env req)
    evidence := (retrievedEvidence env req).take req.maxAnswers
    kgPaths := syncKgPaths env req
    confidenceScore := round2 (overallConfidence (retrievedEvidence env req))
    warnings := syncWarnings env req
    disclaimer := disclaimerText
    processingTimeMs := env.processingTimeMs
    modelUsed := modelUsedName env }

/-- `kg_context` of the streaming pipeline, which — unlike the synchronous
one — performs no memory lookup. -/
def streamKgContext (env : Env) (req : QueryRequest) : String :=
  let ctx1 :=
    if syncEntities env req ≠ [] ∧ env.kgConnected then
      get_kg_context_for_query env (syncEntities env req)
    else ""
  if ctx1 = "" ∧ syncKgPaths env req ≠ [] then pathsContext (syncKgPaths env req)
  else ctx1

/-- `kg_available` of the streaming pipeline. -/
def streamKgAvailable (env : Env) (req : QueryRequest) : Bool :=
  decide (streamKgContext env req ≠ "" ∨ syncKgPaths env req ≠ [])

/-- The content fragments emitted by the streaming pipeline and the
`full_answer` it accumulates, by provider branch: mock mode emits the
template answer one character at a time; a successful provider stream emits
each non-empty delta (plus the attribution notice when no graph data
exists); a failed stream emits the fallback answer as a single fragment. -/
def streamChunksAndAnswer (env : Env) (req : QueryRequest) :
    List String × String :=
  match env.provider with
  | .mock =>
    let answer :=
      if streamKgAvailable env req then
        generate_mock_response req.query (syncEntities env req)
          (retrievedEvidence env req) (syncKgPaths env req) (streamKgContext env req)
      else generate_fallback_response req.query (syncEntities env req)
    (answer.toList.map (fun c => String.mk [c]), answer)
  | _ =>
    match env.llm with
    | .success chunks =>
      let emitted := chunks.filter (fun c => c ≠ "")
      if streamKgAvailable env req then (emitted, concatStrings emitted)
      else
        (emitted ++ [no_kg_notice env], concatStrings emitted ++ no_kg_notice env)
    | .timeout =>
      let answer :=
        generate_mock_response req.query (syncEntities env req)
          (retrievedEvidence env req) (syncKgPaths env req) (streamKgContext env req)
      ([answer], answer)
    | .transportError =>
      let answer :=
        generate_mock_response req.query (syncEntities env req)
          (retrievedEvidence env req) (syncKgPaths env req) (streamKgContext env req)
      ([answer], answer)

/-- The warning list of the streaming pipeline. -/
def streamWarnings (env : Env) (req : QueryRequest) : List String :=
  (if retrievedEvidence env req = [] then ["未找到直接相关的医学文献"] else []) ++
  (if ¬ streamKgAvailable env req then ["知识图谱中未找到相关信息"] else []) ++
  (if ¬ env.kgConnected then ["知识图谱服务未连接"] else [])

/-- The `QueryResponse` carried by the terminal `complete` event of the
streaming pipeline. -/
def streamResponse (env : Env) (req : QueryRequest) : QueryResponse :=
  { queryId := env.queryId
    answer := (streamChunksAndAnswer env req).2
    answerSource := answerSourceOf env.provider (streamKgAvailable env req)
    evidence := (retrievedEvidence env req).take req.maxAnswers
    kgPaths := syncKgPaths env req
    confidenceScore := round2 (overallConfidence (retrievedEvidence env req))
    warnings := streamWarnings env req
    disclaimer := disclaimerText
    processingTimeMs := env.processingTimeMs
    modelUsed := modelUsedName env }

/-- Streaming events, keyed by the `status` field of the SSE payloads; the
human-readable `message` strings carry no data and are dropped. -/
inductive SEvent
  | searching
  | evidenceFound (count : Nat)
  | generating
  | content (text : String)
  | complete (response : QueryResponse)
deriving DecidableEq

/-- `QAService._process_query_stream_internal`: the full (non-cancelled)
event sequence, in yield order. -/
def process_query_stream_internal (env : Env) (req : QueryRequest) :
    List SEvent :=
  SEvent.searching ::
  SEvent.evidenceFound (retrievedEvidence env req).length ::
  SEvent.generating ::
  (((streamChunksAndAnswer env req).1.map SEvent.content) ++
    [SEvent.complete (streamResponse env req)])

/-- The text payload of a `content` event. -/
def contentText : SEvent → Option String
  | .content s => some s
  | _ => none

/-- The response payload of a `complete` event. -/
def completePayload : SEvent → Option QueryResponse
  | .complete r => some r
  | _ => none

/-- The side condition under which the pipeline's answer is provably
non-empty: a *successful* provider call returned non-empty text (timeouts,
transport errors and mock mode need no assumption). -/
def successNonEmpty (b : LLMBehavior) : Prop :=
  match b with
  | .success chunks => concatStrings chunks ≠ ""
  | _ => True

/-- A closed environment with every collaborator empty, mock provider, and
a timed-out LLM; concrete scenarios are built from it by record update. -/
def emptyEnv : Env :=
  { kgConnected := false
    searchDiseaseO := fun _ _ => []
    searchSymptomO := fun _ _ => []
    fullDiseaseInfoO := fun _ => none
    diseasesBySymptomO := fun _ => []
    vectorSearchO := fun _ _ _ => []
    memorySearchO := fun _ _ _ => []
    provider := .mock
    llm := .timeout
    siliconflowModel := "deepseek-chat"
    queryId := "q_0"
    processingTimeMs := 0 }

/-- A request with the pydantic defaults (`max_answers = 3`, both include
flags true) and the given question. -/
def reqOf (q : String) : QueryRequest :=
  { query := q
    history := []
    userId := none
    maxAnswers := 3
    includeKgPaths := true
    includeEvidence := true }

/-- Scenario: disconnected graph store, one stored user memory, SiliconFlow
configured, and a provider call that succeeds with empty output. -/
def envC1 : Env :=
  { emptyEnv with
    provider := .siliconflow
    llm := .success []
    memorySearchO := fun _ _ _ => [⟨"用户对青霉素过敏", "0.9"⟩] }

/-- The request used with `envC1`. -/
def reqC1 : QueryRequest := { reqOf "hi" with userId := some "u1" }

/-- Scenario: disconnected graph store, a configured hosted provider that
answers successfully, and one stored user memory. -/
def envC2 : Env :=
  { emptyEnv with
    provider := .siliconflow
    llm := .success ["好的。"]
    memorySearchO := fun _ _ _ => [⟨"用户有高血压病史", "0.8"⟩] }

/-- The request used with `envC2`. -/
def reqC2 : QueryRequest := { reqOf "hi" with userId := some "u2" }

/-- Scenario: SiliconFlow configured and the provider call timing out, all
stores empty. -/
def envC3 : Env := { emptyEnv with provider := .siliconflow, llm := .timeout }

/-- Scenario: mock provider, disconnected graph store, one stored user
memory — the memory lookup exists only on the synchronous path. -/
def envC4 : Env :=
  { emptyEnv with memorySearchO := fun _ _ _ => [⟨"用户有糖尿病史", "0.9"⟩] }

/-- The request used with `envC4`. -/
def reqC4 : QueryRequest := { reqOf "hi" with userId := some "u4" }

/-- Scenario: connected graph store whose searches all miss. -/
def envC5 : Env := { emptyEnv with kgConnected := true }

/-- Scenario: connected graph store whose fuzzy disease search maps the
canonical synonym `流行性感冒` to the store name `甲型流感` and misses
everything else. -/
def envC6 : Env :=
  { emptyEnv with
    kgConnected := true
    searchDiseaseO := fun kw _ => if kw = "流行性感冒" then ["甲型流感"] else [] }

/-- A one-turn user history for the `envC6` scenario. -/
def hC6 : List ChatMessage := [⟨"user", "你好"⟩]

/-- Scenario: the vector store returns three passages with confidences
0.4, 0.8 and 0.82. -/
def envC8 : Env :=
  { emptyEnv with
    vectorSearchO := fun _ _ _ =>
      [⟨"A", "s1", 2/5, none⟩, ⟨"B", "s2", 4/5, none⟩, ⟨"C", "s3", 41/50, none⟩] }

/-- The request used with `envC8`: `max_answers = 1`, so two of the three
retrieved passages are dropped from the response. -/
def reqC8 : QueryRequest := { reqOf "hi" with maxAnswers := 1 }

/-- A disease record whose description is 201 characters long and whose
other fields are empty. -/
def infoC9 : DiseaseInfo :=
  { name := "甲病"
    description := String.mk (List.replicate 201 'a')
    cause := ""
    prevent := ""
    symptoms := []
    common_drugs := []
    recommended_drugs := []
    do_eat := []
    not_eat := []
    checks := []
    departments := []
    cure_ways := []
    complications := [] }

/-- Scenario: connected graph store serving `infoC9` for the entity
`甲病`. -/
def envC9 : Env :=
  { emptyEnv with
    kgConnected := true
    fullDiseaseInfoO := fun n => if n = "甲病" then some infoC9 else none }

/-- A disease record with short non-empty description, cause and
prevention fields, used as a witness input. -/
def infoW9 : DiseaseInfo :=
  { name := "乙病"
    description := "短描述"
    cause := "病因文本"
    prevent := "预防文本"
    symptoms := []
    common_drugs := []
    recommended_drugs := []
    do_eat := []
    not_eat := []
    checks := []
    departments := []
    cure_ways := []
    complications := [] }

/-- Scenario: connected graph store serving `infoW9` for the entity
`乙病`. -/
def envW9 : Env :=
  { emptyEnv with
    kgConnected := true
    fullDiseaseInfoO := fun n => if n = "乙病" then some infoW9 else none }

theorem strEq_of_data {s t : String} (h : s.data = t.data) : s = t := by
  cases s; cases t; exact congrArg String.mk h

theorem strData_append (s t : String) : (s ++ t).data = s.data ++ t.data := rfl

theorem append_ne_left {a : String} (b : String) (h : a ≠ "") : a ++ b ≠ "" := by
  intro hab
  apply h
  have hd : a.data ++ b.data = [] := by
    have := congrArg String.data hab
    simpa [strData_append] using this
  exact strEq_of_data (by simpa using (List.append_eq_nil.mp hd).1)

theorem append_ne_right {b : String} (a : String) (h : b ≠ "") : a ++ b ≠ "" := by
  intro hab
  apply h
  have hd : a.data ++ b.data = [] := by
    have := congrArg String.data hab
    simpa [strData_append] using this
  exact strEq_of_data (by simpa using (List.append_eq_nil.mp hd).2)

theorem strAppend_empty (s : String) : s ++ "" = s :=
  strEq_of_data (by simp [strData_append])

theorem strEmpty_append (s : String) : "" ++ s = s :=
  strEq_of_data (by simp [strData_append])

theorem concat_append (l₁ l₂ : List String) :
    concatStrings (l₁ ++ l₂) = concatStrings l₁ ++ concatStrings l₂ := by
  induction l₁ with
  | nil => simp [concatStrings, strEmpty_append]
  | cons s rest ih =>
    show s ++ concatStrings (rest ++ l₂) = s ++ concatStrings rest ++ concatStrings l₂
    rw [ih]
    exact strEq_of_data (by simp [strData_append])

theorem concat_filter_ne_empty (l : List String) :
    concatStrings (l.filter (fun c => c ≠ "")) = concatStrings l := by
  induction l with
  | nil => rfl
  | cons s rest ih =>
    rw [List.filter_cons]
    by_cases hs : s = ""
    · rw [if_neg (by simp [hs])]
      rw [ih, hs]
      exact (strEmpty_append _).symm
    · rw [if_pos (by simp [hs])]
      show s ++ concatStrings (rest.filter _) = s ++ concatStrings rest
      rw [ih]

theorem strMk_toList (s : String) : String.mk s.toList = s := rfl

theorem concat_singleton (s : String) : concatStrings [s] = s := by
  show s ++ "" = s
  exact strAppend_empty s

theorem concat_singletons (cs : List Char) :
    concatStrings (cs.map (fun c => String.mk [c])) = String.mk cs := by
  induction cs with
  | nil => rfl
  | cons c rest ih => simp only [List.map, concatStrings, ih]; rfl

theorem mem_dedupFirstAux (x : String) :
    ∀ (l : List String) (seen : List String),
      (x ∈ dedupFirstAux seen l ↔ x ∈ l ∧ x ∉ seen) := by
  intro l
  induction l with
  | nil => intro seen; simp [dedupFirstAux]
  | cons y ys ih =>
    intro seen
    by_cases hy : y ∈ seen
    · simp only [dedupFirstAux, if_pos hy, ih seen, List.mem_cons]
      constructor
      · rintro ⟨h1, h2⟩
        exact ⟨Or.inr h1, h2⟩
      · rintro ⟨h1 | h1, h2⟩
        · exact absurd (by rw [h1]; exact hy) h2
        · exact ⟨h1, h2⟩
    · simp only [dedupFirstAux, if_neg hy, List.mem_cons, ih (y :: seen)]
      constructor
      · rintro (rfl | ⟨h1, h2⟩)
        · exact ⟨Or.inl rfl, hy⟩
        · exact ⟨Or.inr h1, fun hs => h2 (Or.inr hs)⟩
      · rintro ⟨h1 | h1, h2⟩
        · exact Or.inl h1
        · by_cases hxy : x = y
          · exact Or.inl hxy
          · refine Or.inr ⟨h1, fun hs => ?_⟩
            rcases hs with h | h
            · exact hxy h
            · exact h2 h

theorem mem_dedupFirst (x : String) (l : List String) :
    x ∈ dedupFirst l ↔ x ∈ l := by
  simpa [dedupFirst] using mem_dedupFirstAux x l []

theorem probeTerms_prefix (env : Env) (ph : Phase) :
    ∀ (ts acc : List String), ∃ r, (probeTerms env ph acc ts).1 = acc ++ r := by
  intro ts
  induction ts with
  | nil => intro acc; exact ⟨[], by simp [probeTerms]⟩
  | cons t ts ih =>
    intro acc
    by_cases ht : t ∈ acc
    · simpa [probeTerms, ht] using ih acc
    · simp only [probeTerms, if_neg ht]
      cases hd : search_disease env t 1 with
      | cons d ds =>
        obtain ⟨r, hr⟩ := ih (acc ++ [d])
        exact ⟨[d] ++ r, by simp [hr]⟩
      | nil =>
        cases hs : search_symptom env t 1 with
        | cons s ss =>
          obtain ⟨r, hr⟩ := ih (acc ++ [s])
          exact ⟨[s] ++ r, by simp [hr]⟩
        | nil => simpa using ih acc

theorem probeTerms_phase (env : Env) (ph : Phase) :
    ∀ (ts acc : List String) (c : ProbeCall),
      c ∈ (probeTerms env ph acc ts).2 → c.phase = ph := by
  intro ts
  induction ts with
  | nil => intro acc c hc; simp [probeTerms] at hc
  | cons t ts ih =>
    intro acc c hc
    by_cases ht : t ∈ acc
    · exact ih acc c (by simpa [probeTerms, ht] using hc)
    · simp only [probeTerms, if_neg ht] at hc
      cases hd : search_disease env t 1 with
      | cons d ds =>
        simp only [hd] at hc
        rcases List.mem_cons.mp hc with rfl | hc
        · rfl
        · exact ih (acc ++ [d]) c hc
      | nil =>
        simp only [hd] at hc
        cases hs : search_symptom env t 1 with
        | cons s ss =>
          simp only [hs] at hc
          rcases List.mem_cons.mp hc with rfl | hc
          · rfl
          · rcases List.mem_cons.mp hc with rfl | hc
            · rfl
            · exact ih (acc ++ [s]) c hc
        | nil =>
          simp only [hs] at hc
          rcases List.mem_cons.mp hc with rfl | hc
          · rfl
          · rcases List.mem_cons.mp hc with rfl | hc
            · rfl
            · exact ih acc c hc

theorem foldl_dedup_prefix :
    ∀ (l acc : List String),
      ∃ r, l.foldl (fun a e => if e ∈ a then a else a ++ [e]) acc = acc ++ r := by
  intro l
  induction l with
  | nil => intro acc; exact ⟨[], by simp⟩
  | cons e es ih =>
    intro acc
    by_cases he : e ∈ acc
    · simpa [he] using ih acc
    · obtain ⟨r, hr⟩ := ih (acc ++ [e])
      exact ⟨[e] ++ r, by simp [he, hr]⟩

theorem mergePass_prefix (env : Env) (history : List ChatMessage) (query : String)
    (acc : List String) : ∃ r, (mergePass env history query acc).1 = acc ++ r := by
  unfold mergePass
  by_cases hg : history ≠ [] ∧ env.kgConnected
  · simp only [if_pos hg]
    obtain ⟨r₁, hr₁⟩ := probeTerms_prefix env .stepMerge
      (findChunks 2 6 (joinSep " " ((lastN 6 history).map (fun m => m.content)) ++ " " ++ query).toList) acc
    obtain ⟨r₂, hr₂⟩ := foldl_dedup_prefix
      (extract_entities (joinSep " " ((lastN 6 history).map (fun m => m.content)) ++ " " ++ query))
      ((probeTerms env .stepMerge acc
        (findChunks 2 6 (joinSep " " ((lastN 6 history).map (fun m => m.content)) ++ " " ++ query).toList)).1)
    exact ⟨r₁ ++ r₂, by rw [hr₂, hr₁, List.append_assoc]⟩
  · simp only [if_neg hg]
    exact ⟨[], by simp⟩

theorem mergePass_phase (env : Env) (history : List ChatMessage) (query : String)
    (acc : List String) (c : ProbeCall) (hc : c ∈ (mergePass env history query acc).2) :
    c.phase = .stepMerge := by
  unfold mergePass at hc
  by_cases hg : history ≠ [] ∧ env.kgConnected
  · simp only [if_pos hg] at hc
    exact probeTerms_phase env .stepMerge _ _ c hc
  · simp only [if_neg hg] at hc
    simp at hc

theorem concat_mem_seg {s : String} :
    ∀ {l : List String}, s ∈ l → s.toList <:+: (concatStrings l).toList := by
  intro l
  induction l with
  | nil => intro h; simp at h
  | cons a rest ih =>
    intro h
    rcases List.mem_cons.mp h with rfl | h
    · exact ⟨[], (concatStrings rest).toList, by
        show [] ++ s.data ++ (concatStrings rest).data = (s ++ concatStrings rest).data
        simp [strData_append]⟩
    · refine (ih h).trans ?_
      refine ⟨a.toList, [], ?_⟩
      show a.data ++ (concatStrings rest).data ++ [] = (a ++ concatStrings rest).data
      simp [strData_append]

theorem filterMap_content_map (l : List String) :
    (l.map SEvent.content).filterMap contentText = l := by
  induction l with
  | nil => rfl
  | cons s rest ih => simp [List.filterMap, contentText, ih]

theorem filterMap_content_comp (l : List String) :
    List.filterMap (contentText ∘ SEvent.content) l = l := by
  induction l with
  | nil => rfl
  | cons s rest ih => simp [List.filterMap_cons, contentText, Function.comp, ih]

theorem filterMap_complete_map (l : List String) :
    (l.map SEvent.content).filterMap completePayload = [] := by
  induction l with
  | nil => rfl
  | cons s rest ih => simp [List.filterMap, completePayload, ih]

theorem listSum_nonneg (l : List ℚ) (h : ∀ x ∈ l, 0 ≤ x) : 0 ≤ l.sum := by
  induction l with
  | nil => simp
  | cons a rest ih =>
    simp only [List.sum_cons]
    have ha := h a (List.mem_cons_self a rest)
    have hr := ih (fun x hx => h x (List.mem_cons_of_mem _ hx))
    linarith

theorem listSum_le_length (l : List ℚ) (h : ∀ x ∈ l, x ≤ 1) :
    l.sum ≤ (l.length : ℚ) := by
  induction l with
  | nil => simp
  | cons a rest ih =>
    simp only [List.sum_cons, List.length_cons]
    have ha := h a (List.mem_cons_self a rest)
    have hr := ih (fun x hx => h x (List.mem_cons_of_mem _ hx))
    push_cast
    linarith

theorem meanQ_bounds (l : List ℚ) (hne : l ≠ [])
    (h : ∀ x ∈ l, 0 ≤ x ∧ x ≤ 1) : 0 ≤ meanQ l ∧ meanQ l ≤ 1 := by
  have hlen : 0 < (l.length : ℚ) := by
    have : 0 < l.length := List.length_pos.mpr hne
    exact_mod_cast this
  constructor
  · exact div_nonneg (listSum_nonneg l (fun x hx => (h x hx).1)) (le_of_lt hlen)
  · rw [meanQ, div_le_one hlen]
    exact listSum_le_length l (fun x hx => (h x hx).2)

theorem roundHalfEven_bounds {q : ℚ} (h0 : 0 ≤ q) (h1 : q ≤ 100) :
    0 ≤ roundHalfEven q ∧ roundHalfEven q ≤ 100 := by
  unfold roundHalfEven
  have hf0 : (0 : ℤ) ≤ ⌊q⌋ := Int.le_floor.mpr (by exact_mod_cast h0)
  have hfle : (⌊q⌋ : ℚ) ≤ q := Int.floor_le q
  have hf100 : ⌊q⌋ ≤ 100 := by
    have : (⌊q⌋ : ℚ) ≤ 100 := le_trans hfle h1
    exact_mod_cast this
  by_cases hr : q - ⌊q⌋ < 1/2
  · simp only [if_pos hr]
    exact ⟨hf0, hf100⟩
  · have hf99 : ⌊q⌋ ≤ 99 := by
      have hge : (1 : ℚ)/2 ≤ q - ⌊q⌋ := le_of_not_lt hr
      have : (⌊q⌋ : ℚ) + 1/2 ≤ 100 := by linarith
      have : (⌊q⌋ : ℚ) < 100 := by linarith
      have : ⌊q⌋ < 100 := by exact_mod_cast this
      omega
    simp only [if_neg hr]
    by_cases hr2 : 1/2 < q - ⌊q⌋
    · simp only [if_pos hr2]
      omega
    · simp only [if_neg hr2]
      by_cases hdvd : 2 ∣ ⌊q⌋
      · simp only [if_pos hdvd]; exact ⟨hf0, hf100⟩
      · simp only [if_neg hdvd]; omega

theorem round2_bounds {q : ℚ} (h0 : 0 ≤ q) (h1 : q ≤ 1) :
    0 ≤ round2 q ∧ round2 q ≤ 1 := by
  have hb := roundHalfEven_bounds (q := 100 * q) (by linarith) (by linarith)
  unfold round2
  constructor
  · apply div_nonneg _ (by norm_num)
    exact_mod_cast hb.1
  · rw [div_le_one (by norm_num : (0:ℚ) < 100)]
    exact_mod_cast hb.2

theorem synFold_id (q : String) :
    ∀ (l : List (String × String)) (acc : List String),
      (∀ p ∈ l, ¬ (substrB p.1 q = true)) →
      l.foldl (fun a p => if substrB p.1 q ∧ p.2 ∉ a then a ++ [p.2] else a) acc = acc := by
  intro l
  induction l with
  | nil => intro acc _; rfl
  | cons p ps ih =>
    intro acc h
    have hp := h p (List.mem_cons_self p ps)
    have hcond : ¬ (substrB p.1 q = true ∧ p.2 ∉ acc) := fun hand => hp hand.1
    simp only [List.foldl_cons, if_neg hcond]
    exact ih acc (fun x hx => h x (List.mem_cons_of_mem _ hx))

theorem generate_default_response_ne_empty (q : String) (ev : List Evidence) :
    generate_default_response q ev ≠ "" := by
  unfold generate_default_response
  exact append_ne_left _ (append_ne_left _ (by decide))

theorem generate_mock_response_ne_empty (q : String) (es : List String)
    (ev : List Evidence) (ps : List KGPath) (ctx : String) :
    generate_mock_response q es ev ps ctx ≠ "" := by
  unfold generate_mock_response
  repeat' split
  · exact append_ne_left _ (append_ne_left _ (append_ne_left _ (append_ne_left _ (by decide))))
  · exact append_ne_left _ (by decide)
  · exact append_ne_left _ (by decide)
  · exact append_ne_left _ (by decide)
  · exact append_ne_left _ (by decide)
  · exact append_ne_left _ (by decide)
  · exact append_ne_left _ (generate_default_response_ne_empty q ev)

theorem generate_fallback_response_ne_empty (q : String) (es : List String) :
    generate_fallback_response q es ≠ "" := by
  unfold generate_fallback_response
  exact append_ne_left _ (append_ne_left _ (by decide))

theorem no_kg_notice_ne_empty (env : Env) : no_kg_notice env ≠ "" := by
  unfold no_kg_notice
  exact append_ne_left _ (append_ne_left _ (by decide))

theorem resolverS3_prefix (env : Env) (q : String) (h : List ChatMessage) :
    ∃ b, (resolverS3 env q h).1 = (entitiesAfterProbe env q).1 ++ b := by
  unfold resolverS3
  split
  · exact ⟨_, rfl⟩
  · exact ⟨[], by simp⟩

theorem resolverS4_prefix (env : Env) (q : String) (h : List ChatMessage) :
    ∃ b, (resolverS4 env q h).1 = (resolverS3 env q h).1 ++ b := by
  unfold resolverS4
  split
  · exact ⟨_, rfl⟩
  · exact ⟨[], by simp⟩

theorem entitiesAfterProbe_phase (env : Env) (q : String) (c : ProbeCall)
    (hc : c ∈ (entitiesAfterProbe env q).2) : c.phase = .stepProbe := by
  unfold entitiesAfterProbe at hc
  by_cases hcn : env.kgConnected = true
  · rw [if_pos hcn] at hc
    exact probeTerms_phase env _ _ _ c hc
  · rw [if_neg hcn] at hc
    simp at hc

/-- C1 counterexample: with the graph store disconnected but one stored
user memory present, a SiliconFlow call that *succeeds with empty output*
produces a `QueryResponse` whose `answer` is the empty string even though
the request is valid — refuting the unconditional non-emptiness part of the
claim (the memory preamble makes `kg_available` true, so no attribution
notice is appended either). -/
theorem c1_counterexample :
    ValidRequest reqC1 ∧ (process_query_internal envC1 reqC1).answer = "" := by
  exact ⟨by decide, by decide⟩

/-- C1 (amended): for every valid request and every collaborator/provider
state, `process_query_internal` totalises to a `QueryResponse` whose
disclaimer equals the fixed disclaimer text, and whose answer is non-empty
provided that a *successful* provider call returned non-empty text; mock
mode, timeouts and transport errors need no proviso.  (The unconditional
claim fails exactly when a provider succeeds with empty output, as the
counterexample shows.) -/
theorem c1_amended (env : Env) (req : QueryRequest) (hv : ValidRequest req)
    (hs : successNonEmpty env.llm) :
    (process_query_internal env req).answer ≠ "" ∧
    (process_query_internal env req).disclaimer = disclaimerText := by
  refine ⟨?_, rfl⟩
  show syncAnswer env req ≠ ""
  unfold syncAnswer
  cases hpv : env.provider
  case mock =>
    by_cases hk : syncKgAvailable env req = true
    · rw [if_pos hk]
      exact generate_mock_response_ne_empty _ _ _ _ _
    · rw [if_neg hk]
      exact generate_fallback_response_ne_empty _ _
  case siliconflow =>
    cases hllm : env.llm
    case success chunks =>
      rw [hllm] at hs
      have hs' : concatStrings chunks ≠ "" := hs
      show concatStrings chunks ++
        (if syncKgAvailable env req = true then "" else no_kg_notice env) ≠ ""
      by_cases hk : syncKgAvailable env req = true
      · rw [if_pos hk, strAppend_empty]
        exact hs'
      · rw [if_neg hk]
        exact append_ne_right _ (no_kg_notice_ne_empty env)
    case timeout => exact generate_mock_response_ne_empty _ _ _ _ _
    case transportError => exact generate_mock_response_ne_empty _ _ _ _ _
  case gemini =>
    cases hllm : env.llm
    case success chunks =>
      rw [hllm] at hs
      have hs' : concatStrings chunks ≠ "" := hs
      show concatStrings chunks ++
        (if syncKgAvailable env req = true then "" else no_kg_notice env) ≠ ""
      by_cases hk : syncKgAvailable env req = true
      · rw [if_pos hk, strAppend_empty]
        exact hs'
      · rw [if_neg hk]
        exact append_ne_right _ (no_kg_notice_ne_empty env)
    case timeout => exact generate_mock_response_ne_empty _ _ _ _ _
    case transportError => exact generate_mock_response_ne_empty _ _ _ _ _
  case openai =>
    cases hllm : env.llm
    case success chunks =>
      rw [hllm] at hs
      have hs' : concatStrings chunks ≠ "" := hs
      show concatStrings chunks ++
        (if syncKgAvailable env req = true then "" else no_kg_notice env) ≠ ""
      by_cases hk : syncKgAvailable env req = true
      · rw [if_pos hk, strAppend_empty]
        exact hs'
      · rw [if_neg hk]
        exact append_ne_right _ (no_kg_notice_ne_empty env)
    case timeout => exact generate_mock_response_ne_empty _ _ _ _ _
    case transportError => exact generate_mock_response_ne_empty _ _ _ _ _

/-- C1 witness: the amended theorem instantiated at the all-empty mock
environment and the valid question `头痛怎么办`. -/
theorem c1_witness :
    (process_query_internal emptyEnv (reqOf "头痛怎么办")).answer ≠ "" ∧
    (process_query_internal emptyEnv (reqOf "头痛怎么办")).disclaimer = disclaimerText :=
  c1_amended emptyEnv (reqOf "头痛怎么办") (by decide) trivial

/-- C2: exhibit of the code bug — with the graph store *disconnected*, a
configured hosted provider and one stored user memory, the memory preamble
is written into `kg_context`, `kg_available` becomes true, and the response
is classified `mixed` (mock mode would analogously give `knowledge_graph`),
contradicting the claim and the spec. -/
theorem c2_code_bug_exhibit :
    envC2.kgConnected = false ∧
    (process_query_internal envC2 reqC2).answerSource = AnswerSource.mixed := by
  exact ⟨rfl, by decide⟩

/-- C3 counterexample: when the SiliconFlow call times out, the answer text
is indeed the deterministic fallback (`_generate_mock_response`), but
`answer_source` is `llm_only` — derived from the *configured* provider, not
from the degraded template path the claim requires. -/
theorem c3_counterexample :
    (process_query_internal envC3 (reqOf "hi")).answer =
      generate_mock_response "hi" [] [] [] "" ∧
    (process_query_internal envC3 (reqOf "hi")).answerSource = AnswerSource.llm_only ∧
    AnswerSource.llm_only ≠ AnswerSource.template := by
  exact ⟨by decide, by decide, by decide⟩

/-- C3 (amended): for every hosted-provider configuration, a timeout or
transport error makes the answer equal to the deterministic
`_generate_mock_response` fallback text, while `answer_source` is still
derived from the configured provider (`mixed` when graph context was found,
`llm_only` otherwise) — the degradation is *not* reflected in
`answer_source`. -/
theorem c3_amended (env : Env) (req : QueryRequest)
    (hp : env.provider ≠ .mock)
    (hf : env.llm = .timeout ∨ env.llm = .transportError) :
    (process_query_internal env req).answer =
      generate_mock_response req.query (syncEntities env req)
        (retrievedEvidence env req) (syncKgPaths env req) (syncKgContext env req) ∧
    (process_query_internal env req).answerSource =
      (if syncKgAvailable env req then AnswerSource.mixed else AnswerSource.llm_only) := by
  constructor
  · show syncAnswer env req = _
    unfold syncAnswer
    cases hpv : env.provider
    case mock => exact absurd hpv hp
    case siliconflow => rcases hf with hf | hf <;> rw [hf]
    case gemini => rcases hf with hf | hf <;> rw [hf]
    case openai => rcases hf with hf | hf <;> rw [hf]
  · show answerSourceOf env.provider (syncKgAvailable env req) = _
    unfold answerSourceOf
    cases hpv : env.provider
    case mock => exact absurd hpv hp
    case siliconflow => rfl
    case gemini => rfl
    case openai => rfl

/-- C3 witness: the amended theorem instantiated at the timed-out
SiliconFlow environment. -/
theorem c3_witness :
    (process_query_internal envC3 (reqOf "发烧了")).answer =
      generate_mock_response (reqOf "发烧了").query (syncEntities envC3 (reqOf "发烧了"))
        (retrievedEvidence envC3 (reqOf "发烧了")) (syncKgPaths envC3 (reqOf "发烧了"))
        (syncKgContext envC3 (reqOf "发烧了")) ∧
    (process_query_internal envC3 (reqOf "发烧了")).answerSource =
      (if syncKgAvailable envC3 (reqOf "发烧了") then AnswerSource.mixed
       else AnswerSource.llm_only) :=
  c3_amended envC3 (reqOf "发烧了") (by decide) (Or.inl rfl)

/-- C4 counterexample: identical request, identical store state, identical
(mock) provider — but the synchronous path folds the user's stored memories
into `kg_context` while the streaming path does not, so the two final answer
texts differ (the synchronous path renders the memory preamble as graph
context, the streaming path returns the no-data fallback). -/
theorem c4_counterexample :
    (streamResponse envC4 reqC4).answer ≠ (process_query_internal envC4 reqC4).answer := by
  decide

/-- C4 (amended): when the request triggers no memory lookup or the memory
store returns nothing, the streaming terminal `complete` answer equals the
synchronous answer for every provider state (identical provider output is
encoded by both paths reading the same `Env.llm`).  The equality breaks
exactly when stored memories exist, as the counterexample shows. -/
theorem c4_amended (env : Env) (req : QueryRequest)
    (hm : memoryResults env req = []) :
    (streamResponse env req).answer = (process_query_internal env req).answer := by
  have hmt : memText env req = "" := by
    unfold memText
    rw [if_neg (by simp [hm])]
  have hctx : streamKgContext env req = syncKgContext env req := by
    simp only [streamKgContext, syncKgContext, hmt, strEmpty_append]
  have hav : streamKgAvailable env req = syncKgAvailable env req := by
    simp only [streamKgAvailable, syncKgAvailable, hctx]
  show (streamChunksAndAnswer env req).2 = syncAnswer env req
  cases hpv : env.provider
  case mock =>
    simp only [streamChunksAndAnswer, syncAnswer, hpv, hav, hctx]
  case siliconflow =>
    cases hllm : env.llm
    case success chunks =>
      simp only [streamChunksAndAnswer, syncAnswer, hpv, hllm, hav]
      by_cases hk : syncKgAvailable env req = true
      · rw [if_pos hk, if_pos hk, strAppend_empty]
        exact concat_filter_ne_empty chunks
      · rw [if_neg hk, if_neg hk]
        show concatStrings (chunks.filter (fun c => c ≠ "")) ++ no_kg_notice env = _
        rw [concat_filter_ne_empty chunks]
    case timeout =>
      simp only [streamChunksAndAnswer, syncAnswer, hpv, hllm, hctx]
    case transportError =>
      simp only [streamChunksAndAnswer, syncAnswer, hpv, hllm, hctx]
  case gemini =>
    cases hllm : env.llm
    case success chunks =>
      simp only [streamChunksAndAnswer, syncAnswer, hpv, hllm, hav]
      by_cases hk : syncKgAvailable env req = true
      · rw [if_pos hk, if_pos hk, strAppend_empty]
        exact concat_filter_ne_empty chunks
      · rw [if_neg hk, if_neg hk]
        show concatStrings (chunks.filter (fun c => c ≠ "")) ++ no_kg_notice env = _
        rw [concat_filter_ne_empty chunks]
    case timeout =>
      simp only [streamChunksAndAnswer, syncAnswer, hpv, hllm, hctx]
    case transportError =>
      simp only [streamChunksAndAnswer, syncAnswer, hpv, hllm, hctx]
  case openai =>
    cases hllm : env.llm
    case success chunks =>
      simp only [streamChunksAndAnswer, syncAnswer, hpv, hllm, hav]
      by_cases hk : syncKgAvailable env req = true
      · rw [if_pos hk, if_pos hk, strAppend_empty]
        exact concat_filter_ne_empty chunks
      · rw [if_neg hk, if_neg hk]
        show concatStrings (chunks.filter (fun c => c ≠ "")) ++ no_kg_notice env = _
        rw [concat_filter_ne_empty chunks]
    case timeout =>
      simp only [streamChunksAndAnswer, syncAnswer, hpv, hllm, hctx]
    case transportError =>
      simp only [streamChunksAndAnswer, syncAnswer, hpv, hllm, hctx]

/-- C4 witness: the amended theorem at the all-empty environment (no user
id, hence no memory lookup). -/
theorem c4_witness :
    memoryResults emptyEnv (reqOf "头痛") = [] ∧
    (streamResponse emptyEnv (reqOf "头痛")).answer =
      (process_query_internal emptyEnv (reqOf "头痛")).answer :=
  ⟨rfl, c4_amended emptyEnv (reqOf "头痛") rfl⟩

/-- C5 counterexample: for the question `头痛呢` the lexicon scan already
yields `头痛`, yet with a connected store the resolver still issues a fuzzy
disease probe for the candidate substring `头痛呢` — the candidate-substring
probe is *not* gated on steps 1–2 finding nothing. -/
theorem c5_counterexample :
    extract_entities "头痛呢" ≠ [] ∧
    envC5.kgConnected = true ∧
    (⟨Phase.stepProbe, ProbeKind.disease, "头痛呢"⟩ : ProbeCall) ∈
      (extract_entities_from_kg envC5 "头痛呢" []).2 := by
  exact ⟨by decide, rfl, by decide⟩

/-- C5 (amended): only the history backoff and the aggressive single-turn
backoff (spec steps 4–5) are gated on earlier steps finding nothing: if the
lexicon/synonym pass together with the candidate-substring probe produced at
least one entity, no backoff probe is issued.  The candidate-substring probe
itself (spec step 3) runs whenever the store is connected, skipping only
candidates already found. -/
theorem c5_amended (env : Env) (q : String) (h : List ChatMessage)
    (hne : (entitiesAfterProbe env q).1 ≠ []) :
    ((extract_entities_from_kg env q h).2.filter
      (fun c => c.phase == Phase.stepHistory || c.phase == Phase.stepAggressive)) = [] := by
  have h3 : resolverS3 env q h = ((entitiesAfterProbe env q).1, []) := by
    unfold resolverS3
    simp [hne]
  have h4 : resolverS4 env q h = ((entitiesAfterProbe env q).1, []) := by
    unfold resolverS4
    rw [h3]
    simp [hne]
  unfold extract_entities_from_kg
  rw [h3, h4]
  have hp : (entitiesAfterProbe env q).2.filter
      (fun c => c.phase == Phase.stepHistory || c.phase == Phase.stepAggressive) = [] := by
    rw [List.filter_eq_nil_iff]
    intro c hc
    have hph := entitiesAfterProbe_phase env q c hc
    simp [hph]
  have hmerge : (mergePass env h q (entitiesAfterProbe env q).1).2.filter
      (fun c => c.phase == Phase.stepHistory || c.phase == Phase.stepAggressive) = [] := by
    rw [List.filter_eq_nil_iff]
    intro c hc
    have hph := mergePass_phase env h q _ c hc
    simp [hph]
  simp [List.filter_append, hp, hmerge]

/-- C5 witness: the amended theorem at the connected-but-all-miss store and
the question `头痛呢`, whose step 1–3 result is non-empty. -/
theorem c5_witness :
    (entitiesAfterProbe envC5 "头痛呢").1 ≠ [] ∧
    ((extract_entities_from_kg envC5 "头痛呢" []).2.filter
      (fun c => c.phase == Phase.stepHistory || c.phase == Phase.stepAggressive)) = [] :=
  ⟨by decide, c5_amended envC5 "头痛呢" [] (by decide)⟩

/-- C6 counterexample: for the question `流感，流行性感冒` the synonym pass
adds the canonical `流行性感冒` to the history-aware resolver's list, so its
candidate probe *skips* that substring; the current-turn-only resolver has
no synonym pass, probes it, and picks up the store name `甲型流感` — an
entity the history-aware resolver never returns.  The subset claim fails
with non-empty history and a fixed store. -/
theorem c6_counterexample :
    "甲型流感" ∈ extract_entities_from_query_only envC6 "流感，流行性感冒" ∧
    "甲型流感" ∉ (extract_entities_from_kg envC6 "流感，流行性感冒" hC6).1 := by
  exact ⟨by decide, by decide⟩

/-- C6 (amended): whenever no colloquial synonym key occurs in the question
(so the synonym pass adds nothing), every entity of the current-turn-only
resolver is also returned by the history-aware resolver, for every store
state and any non-empty history. -/
theorem c6_amended (env : Env) (q : String) (h : List ChatMessage)
    (hh : h ≠ [])
    (hsyn : SYNONYMS.all (fun p => !(substrB p.1 q)) = true) :
    extract_entities_from_query_only env q ⊆ (extract_entities_from_kg env q h).1 := by
  have hsyn' : ∀ p ∈ SYNONYMS, ¬ (substrB p.1 q = true) := by
    intro p hp
    have hb := List.all_eq_true.mp hsyn p hp
    simp only [Bool.not_eq_true'] at hb
    simp [hb]
  have hlex : entitiesLexSyn q = extract_entities q := by
    unfold entitiesLexSyn
    exact synFold_id q SYNONYMS (extract_entities q) hsyn'
  intro x hx
  have hx' : x ∈ (entitiesAfterProbe env q).1 := by
    simp only [extract_entities_from_query_only] at hx
    rw [mem_dedupFirst] at hx
    unfold entitiesAfterProbe
    by_cases hcn : env.kgConnected = true
    · rw [if_pos hcn] at hx
      rw [if_pos hcn, hlex]
      exact hx
    · rw [if_neg hcn] at hx
      rw [if_neg hcn]
      show x ∈ entitiesLexSyn q
      rw [hlex]
      exact hx
  obtain ⟨b3, hb3⟩ := resolverS3_prefix env q h
  obtain ⟨b4, hb4⟩ := resolverS4_prefix env q h
  obtain ⟨m, hm⟩ := mergePass_prefix env h q (resolverS4 env q h).1
  show x ∈ dedupFirst (mergePass env h q (resolverS4 env q h).1).1
  rw [mem_dedupFirst, hm, hb4, hb3]
  exact List.mem_append.mpr (Or.inl (List.mem_append.mpr (Or.inl
    (List.mem_append.mpr (Or.inl hx')))))

/-- C6 witness: the amended theorem at the all-empty store, the question
`头痛` (which contains no colloquial synonym key) and a one-turn history. -/
theorem c6_witness :
    (SYNONYMS.all (fun p => !(substrB p.1 "头痛")) = true) ∧
    extract_entities_from_query_only emptyEnv "头痛" ⊆
      (extract_entities_from_kg emptyEnv "头痛" [⟨"user", "hi"⟩]).1 :=
  ⟨by decide, c6_amended emptyEnv "头痛" [⟨"user", "hi"⟩] (by decide) (by decide)⟩

/-- C7: every full streaming run has exactly the required shape —
`searching`, then `evidence_found` carrying the count of retrieved evidence
items, then `generating`, then zero or more `content` events, terminated by
exactly one `complete` event carrying the full `QueryResponse` (so no
`content` event follows `complete`). -/
theorem c7_stream_event_order (env : Env) (req : QueryRequest) :
    (∃ texts : List String,
      process_query_stream_internal env req =
        SEvent.searching :: SEvent.evidenceFound (retrievedEvidence env req).length ::
          SEvent.generating ::
          (texts.map SEvent.content ++ [SEvent.complete (streamResponse env req)])) ∧
    (process_query_stream_internal env req).filterMap completePayload =
      [streamResponse env req] := by
  constructor
  · exact ⟨(streamChunksAndAnswer env req).1, rfl⟩
  · simp [process_query_stream_internal, completePayload, List.filterMap_cons,
      List.filterMap_append, filterMap_complete_map]

/-- C10: in every full streaming run, the concatenation in emission order of
the `content` payloads equals the `answer` carried by the terminal
`complete` event, across all generation branches (mock character streaming,
provider streaming with and without the appended attribution notice, and the
provider-failure fallback). -/
theorem c10_content_concat (env : Env) (req : QueryRequest) :
    concatStrings ((process_query_stream_internal env req).filterMap contentText) =
      (streamResponse env req).answer ∧
    SEvent.complete (streamResponse env req) ∈ process_query_stream_internal env req := by
  constructor
  · have hfm : (process_query_stream_internal env req).filterMap contentText =
        (streamChunksAndAnswer env req).1 := by
      simp [process_query_stream_internal, contentText, List.filterMap_cons,
        List.filterMap_append, List.filterMap_map, filterMap_content_comp]
    rw [hfm]
    show concatStrings (streamChunksAndAnswer env req).1 = (streamChunksAndAnswer env req).2
    cases hpv : env.provider
    case mock =>
      simp only [streamChunksAndAnswer, hpv]
      rw [concat_singletons, strMk_toList]
    case siliconflow =>
      cases hllm : env.llm
      case success chunks =>
        simp only [streamChunksAndAnswer, hpv, hllm]
        by_cases hk : streamKgAvailable env req = true
        · rw [if_pos hk]
        · rw [if_neg hk]
          show concatStrings (chunks.filter (fun c => c ≠ "") ++ [no_kg_notice env]) = _
          rw [concat_append, concat_singleton]
      case timeout =>
        simp only [streamChunksAndAnswer, hpv, hllm]
        exact concat_singleton _
      case transportError =>
        simp only [streamChunksAndAnswer, hpv, hllm]
        exact concat_singleton _
    case gemini =>
      cases hllm : env.llm
      case success chunks =>
        simp only [streamChunksAndAnswer, hpv, hllm]
        by_cases hk : streamKgAvailable env req = true
        · rw [if_pos hk]
        · rw [if_neg hk]
          show concatStrings (chunks.filter (fun c => c ≠ "") ++ [no_kg_notice env]) = _
          rw [concat_append, concat_singleton]
      case timeout =>
        simp only [streamChunksAndAnswer, hpv, hllm]
        exact concat_singleton _
      case transportError =>
        simp only [streamChunksAndAnswer, hpv, hllm]
        exact concat_singleton _
    case openai =>
      cases hllm : env.llm
      case success chunks =>
        simp only [streamChunksAndAnswer, hpv, hllm]
        by_cases hk : streamKgAvailable env req = true
        · rw [if_pos hk]
        · rw [if_neg hk]
          show concatStrings (chunks.filter (fun c => c ≠ "") ++ [no_kg_notice env]) = _
          rw [concat_append, concat_singleton]
      case timeout =>
        simp only [streamChunksAndAnswer, hpv, hllm]
        exact concat_singleton _
      case transportError =>
        simp only [streamChunksAndAnswer, hpv, hllm]
        exact concat_singleton _
  · simp [process_query_stream_internal]

/-- C8 counterexample: three passages with confidences 0.4, 0.8 and 0.82
are retrieved (`max_answers = 1`, retrieval limit `max_answers + 2 = 3`);
the response keeps only the first, yet its `confidence_score` is `0.67` —
the two-decimal rounding of the mean over all *retrieved* items — which is
neither the mean of the response's evidence confidences (0.4) nor even the
exact mean of the retrieved confidences (101/150). -/
theorem c8_counterexample :
    ValidRequest reqC8 ∧
    (process_query_internal envC8 reqC8).evidence.map (fun e => e.confidence) = [2/5] ∧
    meanQ ((process_query_internal envC8 reqC8).evidence.map (fun e => e.confidence)) = 2/5 ∧
    meanQ ((retrievedEvidence envC8 reqC8).map (fun e => e.confidence)) = 101/150 ∧
    (process_query_internal envC8 reqC8).confidenceScore = 67/100 ∧
    (67 : ℚ)/100 ≠ 2/5 ∧
    (67 : ℚ)/100 ≠ 101/150 := by
  have hev : retrievedEvidence envC8 reqC8 =
      [⟨"A", "s1", 2/5, none⟩, ⟨"B", "s2", 4/5, none⟩, ⟨"C", "s3", 41/50, none⟩] := rfl
  have hevr : (process_query_internal envC8 reqC8).evidence = [⟨"A", "s1", 2/5, none⟩] := by
    show (retrievedEvidence envC8 reqC8).take reqC8.maxAnswers = _
    rw [hev]
    rfl
  refine ⟨by decide, ?_, ?_, ?_, ?_, by norm_num, by norm_num⟩
  · rw [hevr]
    rfl
  · rw [hevr]
    show meanQ [2/5] = 2/5
    simp [meanQ, List.sum_cons, List.sum_nil]
  · rw [hev]
    show meanQ [2/5, 4/5, 41/50] = 101/150
    simp [meanQ, List.sum_cons, List.sum_nil]
    norm_num
  · show round2 (overallConfidence (retrievedEvidence envC8 reqC8)) = 67/100
    have hcs : confidenceScores (retrievedEvidence envC8 reqC8) = [2/5, 4/5, 41/50] := by
      rw [hev]
      unfold confidenceScores
      rw [List.filter_cons, if_pos (by simp only [decide_eq_true_eq]; norm_num),
          List.filter_cons, if_pos (by simp only [decide_eq_true_eq]; norm_num),
          List.filter_cons, if_pos (by simp only [decide_eq_true_eq]; norm_num)]
      rfl
    have hov : overallConfidence (retrievedEvidence envC8 reqC8) = 101/150 := by
      unfold overallConfidence
      rw [hcs, if_neg (by simp)]
      show meanQ [2/5, 4/5, 41/50] = 101/150
      simp [meanQ, List.sum_cons, List.sum_nil]
      norm_num
    rw [hov]
    have hfl : ⌊(100 : ℚ) * (101/150)⌋ = 67 := by
      rw [Int.floor_eq_iff]
      constructor <;> norm_num
    unfold round2 roundHalfEven
    rw [hfl]
    rw [if_pos (by norm_num)]
    norm_num

/-- C8 (amended): the `confidence_score` equals the two-decimal rounding of
the mean of the *non-zero* confidence values of all *retrieved* evidence
items (`max_answers + 2`, before truncation to `max_answers`), or of the
neutral default 0.7 when no retrieved item has non-zero confidence; and
whenever the store honours the `[0, 1]` bound on evidence confidences, the
score lies in `[0, 1]`. -/
theorem c8_amended (env : Env) (req : QueryRequest)
    (hv : ∀ e ∈ retrievedEvidence env req, 0 ≤ e.confidence ∧ e.confidence ≤ 1) :
    (process_query_internal env req).confidenceScore =
      round2 (if confidenceScores (retrievedEvidence env req) = [] then 7/10
              else meanQ (confidenceScores (retrievedEvidence env req))) ∧
    0 ≤ (process_query_internal env req).confidenceScore ∧
    (process_query_internal env req).confidenceScore ≤ 1 := by
  have hbound : 0 ≤ overallConfidence (retrievedEvidence env req) ∧
      overallConfidence (retrievedEvidence env req) ≤ 1 := by
    unfold overallConfidence
    by_cases hc : confidenceScores (retrievedEvidence env req) = []
    · rw [if_pos hc]
      norm_num
    · rw [if_neg hc]
      apply meanQ_bounds _ hc
      intro x hx
      unfold confidenceScores at hx
      rcases List.mem_map.mp hx with ⟨ev, hev, rfl⟩
      exact hv ev (List.mem_of_mem_filter hev)
  have hr := round2_bounds hbound.1 hbound.2
  exact ⟨rfl, hr.1, hr.2⟩

/-- C8 witness: the amended theorem at the three-passage store scenario. -/
theorem c8_witness :
    (process_query_internal envC8 reqC8).confidenceScore =
      round2 (if confidenceScores (retrievedEvidence envC8 reqC8) = [] then 7/10
              else meanQ (confidenceScores (retrievedEvidence envC8 reqC8))) ∧
    0 ≤ (process_query_internal envC8 reqC8).confidenceScore ∧
    (process_query_internal envC8 reqC8).confidenceScore ≤ 1 :=
  c8_amended envC8 reqC8 (by
    intro e he
    have hev : retrievedEvidence envC8 reqC8 =
        [⟨"A", "s1", 2/5, none⟩, ⟨"B", "s2", 4/5, none⟩, ⟨"C", "s3", 41/50, none⟩] := rfl
    rw [hev] at he
    simp only [List.mem_cons, List.not_mem_nil, or_false] at he
    rcases he with rfl | rfl | rfl <;> constructor <;> norm_num)

/-- C9 counterexample: for a disease record whose description is 201
characters of `a`, the rendered context block contains the *full*
description line and does not contain the 200-character-plus-ellipsis form
the claim requires — the `description` field is not truncated. -/
theorem c9_counterexample :
    (("简介：" ++ String.mk (List.replicate 201 'a') ++ "\n").toList <:+:
        (get_kg_context_for_query envC9 ["甲病"]).toList) ∧
    ¬ (("简介：" ++ String.mk (List.replicate 200 'a') ++ "...").toList <:+:
        (get_kg_context_for_query envC9 ["甲病"]).toList) := by
  constructor
  · decide
  · intro hinf
    have hdot : '.' ∈ (get_kg_context_for_query envC9 ["甲病"]).toList :=
      hinf.subset (by decide)
    exact absurd hdot (by decide)

/-- C9 (amended): in the rendered graph-context block the `cause` and
`prevent` free-text fields are truncated at 200 characters with an ellipsis
marker exactly when they exceed 200 characters (`truncate200`), while the
`description` field is rendered in full without truncation. -/
theorem c9_amended (env : Env) (e : String) (info : DiseaseInfo)
    (hc : env.kgConnected = true)
    (hi : env.fullDiseaseInfoO e = some info)
    (hd : info.description ≠ "") (hcause : info.cause ≠ "") (hprev : info.prevent ≠ "") :
    (("简介：" ++ info.description ++ "\n").toList <:+:
        (get_kg_context_for_query env [e]).toList) ∧
    (("病因：" ++ truncate200 info.cause ++ "\n").toList <:+:
        (get_kg_context_for_query env [e]).toList) ∧
    (("预防：" ++ truncate200 info.prevent ++ "\n").toList <:+:
        (get_kg_context_for_query env [e]).toList) := by
  have hce : contextForEntity env e = some (renderDiseaseContext info) := by
    unfold contextForEntity get_full_disease_info
    rw [if_pos hc, hi]
    simp [hd]
  have hctx : get_kg_context_for_query env [e] = renderDiseaseContext info := by
    unfold get_kg_context_for_query
    rw [if_pos hc]
    show joinSep "\n" (([e].take 3).filterMap (contextForEntity env)) = _
    simp [hce, joinSep]
  rw [hctx]
  unfold renderDiseaseContext
  refine ⟨concat_mem_seg ?_, concat_mem_seg ?_, concat_mem_seg ?_⟩
  · rw [if_pos hd]
    simp
  · rw [if_pos hcause]
    simp
  · rw [if_pos hprev]
    simp

/-- C9 witness: the amended theorem at a connected store serving a short
record with non-empty description, cause and prevention fields. -/
theorem c9_witness :
    envW9.kgConnected = true ∧
    envW9.fullDiseaseInfoO "乙病" = some infoW9 ∧
    ((("简介：" ++ infoW9.description ++ "\n").toList <:+:
        (get_kg_context_for_query envW9 ["乙病"]).toList) ∧
     (("病因：" ++ truncate200 infoW9.cause ++ "\n").toList <:+:
        (get_kg_context_for_query envW9 ["乙病"]).toList) ∧
     (("预防：" ++ truncate200 infoW9.prevent ++ "\n").toList <:+:
        (get_kg_context_for_query envW9 ["乙病"]).toList)) :=
  ⟨rfl, by decide,
   c9_amended envW9 "乙病" infoW9 rfl (by decide) (by decide) (by decide) (by decide)⟩

end MedQA
